import Mathlib

/-!
# Verification of the pyandor acquisition-coordination core

A shallow embedding, in Lean 4, of the acquisition coordination layer of
the `pyandor` camera driver:

* the status-code classification performed by `AndorCamera._chk`
  (`pyandor/andor/__init__.py`),
* the configuration methods of `AndorCamera` (`set_acquisition_mode`,
  `set_trigger_mode`, `set_cooler_temperature`, `set_gain`, `set_bins`,
  `update_crop`, `stop`, `start`, `acquire_images`) together with the
  base-class `Camera.set_crop` (`pyandor/andor/camera.py`),
* the acquisition worker loop of `CameraThread.run`
  (`pyandor/andor/camthread.py`).

Python attribute mutation is modelled by explicit state passing on a
`Cam` record; a raised Python exception is an `Option CamErr` (returned
next to the state reached at the raise point, since Python leaves the
mutations made before the raise in place); each call into the vendor DLL
is appended to a `calls` trace, and the status code the DLL returns is
either an explicit argument of the method (for configuration calls,
whose status the hardware chooses) or determined by the modelled driver
state (for `AbortAcquisition` and `GetImages`, whose behaviour the spec
fixes at the interface).
-/

namespace Pyandor

/-! ## Status codes

Modelled from the spec: `pyandor/andor/__init__.py` does
`from .andor_status_codes import *`, and that module (the `ANDOR_STATUS`
table) is not among the provided sources.  The named codes below carry
the standard Andor SDK return values; every property proved about them
depends only on the codes being pairwise distinct. -/

def DRV_SUCCESS : Nat := 20002
def DRV_TEMPERATURE_OFF : Nat := 20034
def DRV_TEMP_NOT_STABILIZED : Nat := 20035
def DRV_TEMPERATURE_STABILIZED : Nat := 20036
def DRV_TEMPERATURE_NOT_REACHED : Nat := 20037
def DRV_TEMPERATURE_DRIFT : Nat := 20040
def DRV_GENERAL_ERRORS : Nat := 20049
def DRV_P1INVALID : Nat := 20066
def DRV_ACQUIRING : Nat := 20072
def DRV_IDLE : Nat := 20073

/-- Modelled from the spec: the reverse lookup table `ANDOR_CODES`
(status code to name), also defined in the missing
`andor_status_codes` module.  Only the entries reachable in this
development are listed; any other code maps to a placeholder name. -/
def ANDOR_CODES (status : Nat) : String :=
  if status = DRV_SUCCESS then "DRV_SUCCESS"
  else if status = DRV_TEMPERATURE_OFF then "DRV_TEMPERATURE_OFF"
  else if status = DRV_TEMP_NOT_STABILIZED then "DRV_TEMP_NOT_STABILIZED"
  else if status = DRV_TEMPERATURE_STABILIZED then "DRV_TEMPERATURE_STABILIZED"
  else if status = DRV_TEMPERATURE_NOT_REACHED then "DRV_TEMPERATURE_NOT_REACHED"
  else if status = DRV_TEMPERATURE_DRIFT then "DRV_TEMPERATURE_DRIFT"
  else if status = DRV_GENERAL_ERRORS then "DRV_GENERAL_ERRORS"
  else if status = DRV_P1INVALID then "DRV_P1INVALID"
  else if status = DRV_ACQUIRING then "DRV_ACQUIRING"
  else if status = DRV_IDLE then "DRV_IDLE"
  else "UNKNOWN_ANDOR_STATUS"

/-- Outcome of `AndorCamera._chk` (`pyandor/andor/__init__.py`, lines
69-110): `ok` means the method returns normally with nothing logged,
`warn` means it returns normally after logging the given warning,
`acqInProgress` means it raises `AndorAcqInProgress`, and `fatal msg`
means it raises `AndorError` with the message built from `msg`. -/
inductive ChkResult where
  | ok : ChkResult
  | warn (msg : String) : ChkResult
  | acqInProgress : ChkResult
  | fatal (msg : String) : ChkResult
  deriving DecidableEq, Repr

/-- `AndorCamera._chk`, translated branch for branch from
`pyandor/andor/__init__.py` lines 87-110. -/
def chk (status : Nat) : ChkResult :=
  if status = DRV_ACQUIRING then
    ChkResult.acqInProgress
  else if status = DRV_TEMPERATURE_OFF then
    ChkResult.ok
  else if status = DRV_TEMPERATURE_NOT_REACHED then
    ChkResult.warn "Temperature set point not yet reached."
  else if status = DRV_TEMPERATURE_DRIFT then
    ChkResult.warn "Temperature is drifting."
  else if status = DRV_TEMP_NOT_STABILIZED then
    ChkResult.warn "Temperature set point reached but not yet stable."
  else if status = DRV_TEMPERATURE_STABILIZED then
    ChkResult.ok
  else if status = DRV_IDLE then
    ChkResult.warn "Function call resulted in DRV_IDLE."
  else if status ≠ DRV_SUCCESS then
    ChkResult.fatal (ANDOR_CODES status)
  else
    ChkResult.ok

/-! ## Camera state and the device controller -/

/-- One call into the vendor DLL, recorded in order of issue. -/
inductive DriverCall where
  | setAcquisitionModeCall (code : Nat) : DriverCall
  | setKineticCycleTimeCall (t : Nat) : DriverCall
  | setTriggerModeCall (code : Nat) : DriverCall
  | startAcquisitionCall : DriverCall
  | abortAcquisitionCall : DriverCall
  | sendSoftwareTriggerCall : DriverCall
  | waitForAcquisitionCall : DriverCall
  | getMostRecentImageCall : DriverCall
  | setImageCall (binh binv h0 h1 v0 v1 : Int) : DriverCall
  | setTemperatureCall (t : Int) : DriverCall
  | setEMCCDGainCall (g : Nat) : DriverCall
  | getImagesCall (first last : Nat) : DriverCall
  deriving DecidableEq, Repr

/-- A raised Python exception.  `andor` is `AndorError`, `acqInProgress`
is `AndorAcqInProgress`, `cameraErr` is `CameraError`, `valueErr` is
`ValueError`, `assertionErr` an `assert` failure, and `keyError` a
failed dict lookup. -/
inductive CamErr where
  | andor (msg : String) : CamErr
  | acqInProgress : CamErr
  | cameraErr (msg : String) : CamErr
  | valueErr (msg : String) : CamErr
  | assertionErr : CamErr
  | keyError : CamErr
  deriving DecidableEq, Repr

/-- The mutable attributes of an `AndorCamera` instance used by the
claims, plus the modelled driver-side acquisition flag `acquiring` and
the trace `calls` of vendor-DLL calls issued so far.  `temp_range` is
`self.props[temp_range]` (default `[-90, 30]` from
`pyandor/andor/camprops.py`). -/
structure Cam where
  trigger_mode : Nat
  acq_mode : String
  bins : Nat
  crop : List Int
  shape : List Int
  gain : Nat
  temperature_set_point : Int
  temp_range : Int × Int
  acquiring : Bool
  calls : List DriverCall
  deriving DecidableEq, Repr

/-- A nominal camera state after `Camera.__init__`
(`pyandor/andor/camera.py` lines 79-92) with the default property set of
`pyandor/andor/camprops.py`. -/
def initCam : Cam where
  trigger_mode := 0
  acq_mode := "single"
  bins := 1
  crop := [1, 512, 1, 512]
  shape := [512, 512]
  gain := 0
  temperature_set_point := 0
  temp_range := (-90, 30)
  acquiring := false
  calls := []

/-- `self._chk(status)` as used inside a method: the exception it
raises, if any (the warning-only branches return normally). -/
def chkErr (status : Nat) : Option CamErr :=
  match chk status with
  | ChkResult.acqInProgress => some CamErr.acqInProgress
  | ChkResult.fatal m =>
      some (CamErr.andor ("Andor returned the status message " ++ m))
  | _ => none

/-- `AndorCamera._acq_modes` (`pyandor/andor/__init__.py` lines 52-57). -/
def acq_modes : List (String × Nat) :=
  [("single", 1), ("accumulate", 2), ("kinetics", 3),
   ("fast kinetics", 4), ("continuous", 5)]

/-- `AndorCamera._trigger_modes` (`pyandor/andor/__init__.py` lines
62-67). -/
def trigger_modes : List (String × Nat) :=
  [("internal", 0), ("external", 1), ("external start", 6),
   ("external exposure", 7), ("software", 10)]

/-- Reverse lookup `{v: k for k, v in self._trigger_modes.iteritems()}`
used by `set_trigger_mode` when passed an int. -/
def trigger_modes_rev (code : Nat) : Option String :=
  (trigger_modes.find? (fun p => p.2 = code)).map (fun p => p.1)

/-- `AndorCamera.set_acquisition_mode` (`pyandor/andor/__init__.py`
lines 230-242).  `s1` is the status the driver returns from
`SetAcquisitionMode`, `s2` the one from `SetKineticCycleTime`. -/
def set_acquisition_mode (c : Cam) (mode : String) (s1 s2 : Nat) :
    Cam × Option CamErr :=
  match (acq_modes.find? (fun p => p.1 = mode)) with
  | none =>
      (c, some (CamErr.andor ("Acquisition mode must be one of " ++ mode)))
  | some p =>
      let c := { c with acq_mode := mode,
                        calls := c.calls ++ [DriverCall.setAcquisitionModeCall p.2] }
      match chkErr s1 with
      | some e => (c, some e)
      | none =>
          if mode = "continuous" then
            let c := { c with
              calls := c.calls ++ [DriverCall.setKineticCycleTimeCall 0] }
            (c, chkErr s2)
          else
            (c, none)

/-- Python `str.lower`, restricted to ASCII as in the mode-name strings
of this driver: lowercase every character. -/
def pyLower (s : String) : String :=
  String.mk (s.data.map Char.toLower)

/-- The argument of `AndorCamera.set_trigger_mode`: the method accepts
either a mode name or the int code (line 325: "mode sometimes passed as
int"). -/
inductive TrigArg where
  | name (s : String) : TrigArg
  | code (n : Nat) : TrigArg
  deriving DecidableEq, Repr

/-- `AndorCamera.set_trigger_mode` (`pyandor/andor/__init__.py` lines
315-336).  A string argument is lowercased; an int argument is mapped
back to its name through the reversed `_trigger_modes` dict (a missing
key raises `KeyError`).  `status` is the driver status from
`SetTriggerMode`. -/
def set_trigger_mode (c : Cam) (arg : TrigArg) (status : Nat) :
    Cam × Option CamErr :=
  let mode? : Option String :=
    match arg with
    | TrigArg.name s => some (pyLower s)
    | TrigArg.code n => trigger_modes_rev n
  match mode? with
  | none => (c, some CamErr.keyError)
  | some mode =>
      match (trigger_modes.find? (fun p => p.1 = mode)) with
      | none => (c, some (CamErr.andor ("Invalid trigger mode: " ++ mode)))
      | some p =>
          let c := { c with trigger_mode := p.2,
                            calls := c.calls ++ [DriverCall.setTriggerModeCall p.2] }
          (c, chkErr status)

/-- `AndorCamera.get_trigger_mode` (`pyandor/andor/__init__.py` lines
310-313): returns the stored int code. -/
def get_trigger_mode (c : Cam) : Nat :=
  c.trigger_mode

/-- `AndorCamera.start` (`pyandor/andor/__init__.py` lines 340-343)
against the nominal driver: `StartAcquisition` begins an acquisition and
returns `DRV_SUCCESS`. -/
def cam_start (c : Cam) : Cam × Option CamErr :=
  let c := { c with acquiring := true,
                    calls := c.calls ++ [DriverCall.startAcquisitionCall] }
  (c, chkErr DRV_SUCCESS)

/-- `AbortAcquisition`, modelled from the spec at the driver interface:
it returns `DRV_IDLE` when no acquisition is running, and otherwise
stops the running acquisition and returns `DRV_SUCCESS`. -/
def abortAcquisition (c : Cam) : Cam × Nat :=
  let c := { c with calls := c.calls ++ [DriverCall.abortAcquisitionCall] }
  if c.acquiring then ({ c with acquiring := false }, DRV_SUCCESS)
  else (c, DRV_IDLE)

/-- `AndorCamera.stop` (`pyandor/andor/__init__.py` lines 345-350): the
abort status is passed to `_chk` only when it differs from `DRV_IDLE`. -/
def cam_stop (c : Cam) : Cam × Option CamErr :=
  let (c, status) := abortAcquisition c
  if status ≠ DRV_IDLE then (c, chkErr status) else (c, none)

/-- `AndorCamera.set_cooler_temperature` (`pyandor/andor/__init__.py`
lines 473-481): the set-point attribute is written first, then the value
is validated against `props[temp_range]`, and only then is
`SetTemperature` issued.  `status` is the driver status of that call. -/
def set_cooler_temperature (c : Cam) (temp : Int) (status : Nat) :
    Cam × Option CamErr :=
  let c := { c with temperature_set_point := temp }
  if temp > c.temp_range.2 ∨ temp < c.temp_range.1 then
    (c, some (CamErr.valueErr "Invalid set point."))
  else
    let c := { c with calls := c.calls ++ [DriverCall.setTemperatureCall temp] }
    (c, chkErr status)

/-- `AndorCamera.update_crop` (`pyandor/andor/__init__.py` lines
486-507): the crop and shape attributes are overwritten with the
hard-coded values `[257, 288, 257, 288]` and `[32, 32]` before
`SetImage` is issued.  `status` is the driver status of `SetImage`. -/
def update_crop (c : Cam) (status : Nat) : Cam × Option CamErr :=
  let c := { c with crop := [257, 288, 257, 288], shape := [32, 32] }
  let c := { c with calls := c.calls ++
    [DriverCall.setImageCall c.bins c.bins 257 288 257 288] }
  (c, chkErr status)

/-- `Camera.set_crop` (`pyandor/andor/camera.py` lines 306-318) as
dispatched on an `AndorCamera`: two asserts, a length check, the write
of the crop attribute, then the overridden `update_crop` above. -/
def set_crop (c : Cam) (crop : List Int) (status : Nat) :
    Cam × Option CamErr :=
  if ¬ (crop.getD 1 0 > crop.getD 0 0) then (c, some CamErr.assertionErr)
  else if ¬ (crop.getD 3 0 > crop.getD 2 0) then (c, some CamErr.assertionErr)
  else if crop.length ≠ 4 then
    (c, some (CamErr.cameraErr "crop must be a length 4 array."))
  else
    let c := { c with crop := crop }
    update_crop c status

/-- `AndorCamera.set_bins` (`pyandor/andor/__init__.py` lines 515-531):
the bins attribute is hard-coded to 1 (the assignment of the argument is
commented out) and the crop to `[1, 1024, 1, 1024]`, then `SetImage` is
issued.  The `bins` argument only reaches the log message.  `status` is
the driver status of `SetImage`. -/
def set_bins (c : Cam) (bins : Nat) (status : Nat) : Cam × Option CamErr :=
  let c := { c with bins := 1, crop := [1, 1024, 1, 1024] }
  let c := { c with calls := c.calls ++
    [DriverCall.setImageCall c.bins c.bins 1 1024 1 1024] }
  (c, chkErr status)

/-- Result of `AndorCamera.set_gain`: the state reached, the exception
raised if any, and whether the `elif result == DRV_P1INVALID` branch
(the one logging "the specified gain value is invalid") ran. -/
structure GainResult where
  cam : Cam
  err : Option CamErr
  invalidWarn : Bool
  deriving DecidableEq, Repr

/-- `AndorCamera.set_gain` (`pyandor/andor/__init__.py` lines 416-438),
branch for branch: the assert on the range, the `SetEMCCDGain` call, the
`if result in (DRV_SUCCESS, DRV_P1INVALID)` branch that stores the gain,
the `elif result == DRV_P1INVALID` branch that logs a warning, and the
final `_chk` branch.  `result` is the status `SetEMCCDGain` returns. -/
def set_gain (c : Cam) (gain : Nat) (result : Nat) : GainResult :=
  if ¬ gain ≤ 255 then ⟨c, some CamErr.assertionErr, false⟩
  else
    let c := { c with calls := c.calls ++ [DriverCall.setEMCCDGainCall gain] }
    if result = DRV_SUCCESS ∨ result = DRV_P1INVALID then
      ⟨{ c with gain := gain }, none, false⟩
    else if result = DRV_P1INVALID then
      ⟨c, none, true⟩
    else
      ⟨c, chkErr result, false⟩

/-! ## Frame buffer reader -/

/-- The hardware ring buffer visible through the driver:
`GetNumberAvailableImages` reports the inclusive index range
`[firstIdx, lastIdx]` of retained frames, and `frame i` is the pixel
data stored at buffer index `i`. -/
structure RingBuf where
  firstIdx : Nat
  lastIdx : Nat
  frame : Nat → Nat

/-- `GetImages`, modelled from the spec at the driver interface: a
request with `first ≤ last` lying inside the retained range succeeds
with `DRV_SUCCESS` and fills the buffer with the frames `first..last`
in index order; any other request fails with `DRV_GENERAL_ERRORS` and
fills nothing. -/
def getImagesDriver (rb : RingBuf) (first last : Nat) :
    Nat × List Nat :=
  if first ≤ last ∧ rb.firstIdx ≤ first ∧ last ≤ rb.lastIdx then
    (DRV_SUCCESS, (List.range (last + 1 - first)).map (fun i => rb.frame (first + i)))
  else
    (DRV_GENERAL_ERRORS, [])

/-- The per-frame pixel count `self.shape[0]*self.shape[1]//self.bins**2`
used by `acquire_images` to size the retrieval buffer. -/
def pixArea (c : Cam) : Int :=
  (c.shape.getD 0 0) * (c.shape.getD 1 0) / ((c.bins : Int) ^ 2)

/-- `AndorCamera.acquire_images` (`pyandor/andor/__init__.py` lines
280-300): computes `size = last - first + 1` and the buffer size, builds
the ctypes array (a negative element count raises `ValueError` before
any driver call), issues `GetImages`, routes its status through `_chk`,
and returns `(img_array, size, shape, bins)`. -/
def acquire_images (c : Cam) (rb : RingBuf) (first last : Nat) :
    Except CamErr (List Nat × Int × List Int × Nat) :=
  let size : Int := (last : Int) - (first : Int) + 1
  let buffer_size : Int := pixArea c * size
  if buffer_size < 0 then
    Except.error (CamErr.valueErr "array length must be >= 0")
  else
    let (status, frames) := getImagesDriver rb first last
    match chkErr status with
    | some e => Except.error e
    | none => Except.ok (frames, size, c.shape, c.bins)

/-! ## The acquisition worker (`CameraThread`) -/

/-- A message on the worker's command queue
(`pyandor/andor/camthread.py`): the strings `pause`, `unpause` and
`single`. -/
inductive Msg where
  | pauseMsg : Msg
  | unpauseMsg : Msg
  | singleMsg : Msg
  deriving DecidableEq, Repr

/-- A published frame: `image_signal.emit` hands the consumer the image
captured by `Camera.get_image`.  The frame records the trigger mode and
bin factor of the camera at capture time (the data
`acquire_image_data` produces is shaped by them). -/
structure Frame where
  mode : Nat
  bins : Nat
  deriving DecidableEq, Repr

/-- `AndorCamera.acquire_image_data` / `Camera.get_image`
(`pyandor/andor/__init__.py` lines 244-278, `pyandor/andor/camera.py`
lines 152-163) against the nominal driver: a software trigger is sent
first when the trigger mode is `software` (code 10), then the blocking
wait and the most-recent-image read produce one frame. -/
def get_image (c : Cam) : Cam × Frame :=
  let c :=
    if c.trigger_mode = 10 then
      { c with calls := c.calls ++ [DriverCall.sendSoftwareTriggerCall] }
    else c
  let c := { c with calls := c.calls ++
    [DriverCall.waitForAcquisitionCall, DriverCall.getMostRecentImageCall] }
  (c, ⟨c.trigger_mode, c.bins⟩)

/-- The state of a `CameraThread` (`pyandor/andor/camthread.py` lines
34-43) together with the list of frames published through
`image_signal.emit` so far. -/
structure ThreadState where
  abort : Bool
  paused : Bool
  queue : List Msg
  single_type : String
  cam : Cam
  published : List Frame
  deriving Repr

/-- `CameraThread.pause` (`camthread.py` lines 49-51): enqueues `pause`
only when not already paused. -/
def threadPause (s : ThreadState) : ThreadState :=
  if ¬ s.paused then { s with queue := s.queue ++ [Msg.pauseMsg] } else s

/-- `CameraThread.unpause` (`camthread.py` lines 53-55): enqueues
`unpause` only when paused. -/
def threadUnpause (s : ThreadState) : ThreadState :=
  if s.paused then { s with queue := s.queue ++ [Msg.unpauseMsg] } else s

/-- `CameraThread.get_single_image` (`camthread.py` lines 57-62): only
when paused, records the requested trigger override in `single_type`
and enqueues `single`; otherwise it is refused. -/
def get_single_image (s : ThreadState) (t : String) : ThreadState :=
  if s.paused then
    { s with single_type := t, queue := s.queue ++ [Msg.singleMsg] }
  else s

/-- One iteration of the `while not self.abort` body of
`CameraThread.run` (`camthread.py` lines 64-101), against the nominal
driver (every configuration status is `DRV_SUCCESS`, so no camera call
raises): first the non-blocking queue check consumes and executes at
most one message, then, when not paused, one frame is captured and
published; when paused the iteration just sleeps. -/
def runIter (s : ThreadState) : ThreadState :=
  if s.abort then s
  else
    let s :=
      match s.queue with
      | [] => s
      | msg :: rest =>
          let s := { s with queue := rest }
          match msg with
          | Msg.pauseMsg =>
              { s with cam := (cam_stop s.cam).1, paused := true }
          | Msg.unpauseMsg =>
              { s with cam := (cam_start s.cam).1, paused := false }
          | Msg.singleMsg =>
              let c1 := (cam_stop s.cam).1
              let mode := get_trigger_mode c1
              let c2 := (set_trigger_mode c1 (TrigArg.name s.single_type) DRV_SUCCESS).1
              let c3 := (cam_start c2).1
              let captured := get_image c3
              let c4 := (cam_stop captured.1).1
              let c5 := (set_trigger_mode c4 (TrigArg.code mode) DRV_SUCCESS).1
              { s with cam := c5, published := s.published ++ [captured.2] }
    if ¬ s.paused then
      let captured := get_image s.cam
      { s with cam := captured.1, published := s.published ++ [captured.2] }
    else
      s

/-- `n` successive iterations of the worker loop. -/
def runIters : Nat → ThreadState → ThreadState
  | 0, s => s
  | n + 1, s => runIters n (runIter s)

/-! ## Concrete scenario states -/

/-- A camera mid-streaming with trigger mode `internal` (code 0). -/
def streamCam : Cam :=
  { initCam with acq_mode := "continuous", acquiring := true }

/-- The worker in `Streaming` (`paused = False`) over `streamCam`, with
an empty command queue and nothing published yet. -/
def streamState : ThreadState where
  abort := false
  paused := false
  queue := []
  single_type := "internal"
  cam := streamCam
  published := []

/-- `streamState` after the caller sends `Pause` and the worker runs one
iteration (consuming it). -/
def afterPause : ThreadState :=
  runIter (threadPause streamState)

/-- `afterPause` after the caller requests a single capture with the
`external` trigger override and the worker runs one iteration. -/
def afterSingle : ThreadState :=
  runIter (get_single_image afterPause "external")

/-- `afterSingle` after the caller sends `Resume` and the worker runs
one iteration. -/
def afterResume : ThreadState :=
  runIter (threadUnpause afterSingle)

/-- A streaming worker whose queue holds `Pause` followed by a
`CaptureSingle` request (and never any `Resume`). -/
def pauseThenSingleState : ThreadState where
  abort := false
  paused := false
  queue := [Msg.pauseMsg, Msg.singleMsg]
  single_type := "external"
  cam := streamCam
  published := []

/-- A camera whose cooler set point is currently -10 (the
`init_set_point` default of `pyandor/andor/camprops.py`). -/
def coolerCam : Cam :=
  { initCam with temperature_set_point := -10 }

end Pyandor

/-- C1: the status check sends the busy code `DRV_ACQUIRING` to the
distinguished acquisition-in-progress outcome (which is a different
constructor from every fatal outcome), and every non-success code
outside the busy, temperature-advisory, temperature-off/stabilized and
unexpected-idle sets to a fatal outcome carrying the message looked up
for that code. -/
theorem Pyandor.chk_busy_and_fatal (status : Nat)
    (hbusy : status ≠ Pyandor.DRV_ACQUIRING)
    (hoff : status ≠ Pyandor.DRV_TEMPERATURE_OFF)
    (hnr : status ≠ Pyandor.DRV_TEMPERATURE_NOT_REACHED)
    (hdrift : status ≠ Pyandor.DRV_TEMPERATURE_DRIFT)
    (hnstab : status ≠ Pyandor.DRV_TEMP_NOT_STABILIZED)
    (hstab : status ≠ Pyandor.DRV_TEMPERATURE_STABILIZED)
    (hidle : status ≠ Pyandor.DRV_IDLE)
    (hsucc : status ≠ Pyandor.DRV_SUCCESS) :
    Pyandor.chk Pyandor.DRV_ACQUIRING = Pyandor.ChkResult.acqInProgress
      ∧ Pyandor.chk status = Pyandor.ChkResult.fatal (Pyandor.ANDOR_CODES status)
      ∧ ∀ m, Pyandor.ChkResult.acqInProgress ≠ Pyandor.ChkResult.fatal m := by
  refine ⟨by decide, ?_, fun m h => by cases h⟩
  simp [Pyandor.chk, hbusy, hoff, hnr, hdrift, hnstab, hstab, hidle, hsucc]

/-- Witness for C1 at the concrete code `DRV_GENERAL_ERRORS` (20049). -/
theorem Pyandor.chk_busy_and_fatal_witness :
    Pyandor.chk Pyandor.DRV_ACQUIRING = Pyandor.ChkResult.acqInProgress
      ∧ Pyandor.chk 20049 = Pyandor.ChkResult.fatal (Pyandor.ANDOR_CODES 20049)
      ∧ ∀ m, Pyandor.ChkResult.acqInProgress ≠ Pyandor.ChkResult.fatal m :=
  Pyandor.chk_busy_and_fatal 20049 (by decide) (by decide) (by decide)
    (by decide) (by decide) (by decide) (by decide) (by decide)

/-- C2: from `Streaming` with trigger mode `internal` (code 0), the
sequence `Pause`, `CaptureSingle(external)`, `Resume`: the
capture-single iteration publishes exactly one frame, captured with the
override mode `external` (code 1), returns with the remembered mode
`internal` restored and the worker still `Paused`; inside it the camera
calls are stop, set-trigger(external), start, the blocking capture,
stop, set-trigger(internal) in that order; after the `Resume` iteration
the trigger mode is still `internal` and the worker is streaming
again. -/
theorem Pyandor.single_shot_round_trip :
    Pyandor.afterSingle.published = [⟨1, 1⟩]
      ∧ Pyandor.afterSingle.cam.trigger_mode = 0
      ∧ Pyandor.afterSingle.paused = true
      ∧ Pyandor.afterSingle.cam.acquiring = false
      ∧ Pyandor.afterSingle.cam.calls =
          Pyandor.afterPause.cam.calls ++
            [Pyandor.DriverCall.abortAcquisitionCall,
             Pyandor.DriverCall.setTriggerModeCall 1,
             Pyandor.DriverCall.startAcquisitionCall,
             Pyandor.DriverCall.waitForAcquisitionCall,
             Pyandor.DriverCall.getMostRecentImageCall,
             Pyandor.DriverCall.abortAcquisitionCall,
             Pyandor.DriverCall.setTriggerModeCall 0]
      ∧ Pyandor.afterResume.cam.trigger_mode = 0
      ∧ Pyandor.afterResume.paused = false := by
  decide

/-- Helper: `_chk` raises nothing on `DRV_SUCCESS`. -/
theorem Pyandor.chkErr_success : Pyandor.chkErr Pyandor.DRV_SUCCESS = none := by
  decide

/-- Helper: `AndorCamera.stop` leaves the device idle, raises nothing
(against the modelled abort behaviour), appends exactly the abort call,
and touches no configuration attribute. -/
theorem Pyandor.cam_stop_fields (c : Pyandor.Cam) :
    (Pyandor.cam_stop c).1.acquiring = false
      ∧ (Pyandor.cam_stop c).2 = none
      ∧ (Pyandor.cam_stop c).1.calls
          = c.calls ++ [Pyandor.DriverCall.abortAcquisitionCall]
      ∧ (Pyandor.cam_stop c).1.trigger_mode = c.trigger_mode := by
  cases hc : c.acquiring <;>
    simp [Pyandor.cam_stop, Pyandor.abortAcquisition, hc,
      Pyandor.DRV_SUCCESS, Pyandor.DRV_IDLE, Pyandor.chkErr, Pyandor.chk,
      Pyandor.DRV_ACQUIRING, Pyandor.DRV_TEMPERATURE_OFF,
      Pyandor.DRV_TEMPERATURE_NOT_REACHED, Pyandor.DRV_TEMPERATURE_DRIFT,
      Pyandor.DRV_TEMP_NOT_STABILIZED, Pyandor.DRV_TEMPERATURE_STABILIZED]

/-- Helper: one worker iteration taken while `Paused`, with no `unpause`
and no `single` pending, publishes nothing, stays `Paused`, and leaves
the queue free of `unpause` and `single`. -/
theorem Pyandor.runIter_paused_step (s : Pyandor.ThreadState)
    (hp : s.paused = true)
    (hu : Pyandor.Msg.unpauseMsg ∉ s.queue)
    (hsg : Pyandor.Msg.singleMsg ∉ s.queue) :
    (Pyandor.runIter s).published = s.published
      ∧ (Pyandor.runIter s).paused = true
      ∧ Pyandor.Msg.unpauseMsg ∉ (Pyandor.runIter s).queue
      ∧ Pyandor.Msg.singleMsg ∉ (Pyandor.runIter s).queue := by
  unfold Pyandor.runIter
  cases habort : s.abort with
  | true => simp [hp, hu, hsg]
  | false =>
    cases hq : s.queue with
    | nil => simp [hp, hu, hsg, hq]
    | cons m rest =>
      have hu' : Pyandor.Msg.unpauseMsg ∉ rest := fun h =>
        hu (hq ▸ List.mem_cons_of_mem m h)
      have hs' : Pyandor.Msg.singleMsg ∉ rest := fun h =>
        hsg (hq ▸ List.mem_cons_of_mem m h)
      cases m with
      | pauseMsg => simp [hp, hu', hs', hq]
      | unpauseMsg => exact absurd (hq ▸ List.mem_cons_self _ _) hu
      | singleMsg => exact absurd (hq ▸ List.mem_cons_self _ _) hsg

/-- Helper: iterating `runIter_paused_step`. -/
theorem Pyandor.runIters_paused (n : Nat) (s : Pyandor.ThreadState)
    (hp : s.paused = true)
    (hu : Pyandor.Msg.unpauseMsg ∉ s.queue)
    (hsg : Pyandor.Msg.singleMsg ∉ s.queue) :
    (Pyandor.runIters n s).published = s.published := by
  induction n generalizing s with
  | zero => rfl
  | succ n ih =>
    obtain ⟨h1, h2, h3, h4⟩ := Pyandor.runIter_paused_step s hp hu hsg
    calc (Pyandor.runIters (n + 1) s).published
        = (Pyandor.runIters n (Pyandor.runIter s)).published := rfl
      _ = (Pyandor.runIter s).published := ih _ h2 h3 h4
      _ = s.published := h1

/-- C3 counterexample: with `Pause` followed by `CaptureSingle` pending
and no `Resume` ever enqueued, the iteration that consumes the `Pause`
captures nothing, but the next iteration captures and publishes a frame
even though no `Resume` was dequeued — refuting "after a Pause is
dequeued, no frame is captured until a subsequent Resume is
dequeued". -/
theorem Pyandor.capture_after_pause_without_resume :
    Pyandor.Msg.unpauseMsg ∉ Pyandor.pauseThenSingleState.queue
      ∧ (Pyandor.runIter Pyandor.pauseThenSingleState).published = []
      ∧ (Pyandor.runIter Pyandor.pauseThenSingleState).paused = true
      ∧ Pyandor.Msg.unpauseMsg ∉ (Pyandor.runIter Pyandor.pauseThenSingleState).queue
      ∧ (Pyandor.runIters 2 Pyandor.pauseThenSingleState).published.length = 1 := by
  decide

/-- C3 (amended): each worker iteration checks the command queue before
capturing, so an iteration that starts with a pending `Pause` consumes
it, stops acquisition, and captures nothing; and after a `Pause` is
dequeued no frame is captured until a subsequent `Resume` *or
`CaptureSingle`* command is dequeued (a `single` request made while
paused does capture one frame without any `Resume`). -/
theorem Pyandor.worker_checks_queue_before_capture :
    (∀ s rest, s.abort = false → s.queue = Pyandor.Msg.pauseMsg :: rest →
        (Pyandor.runIter s).published = s.published
          ∧ (Pyandor.runIter s).paused = true
          ∧ (Pyandor.runIter s).cam.acquiring = false
          ∧ (Pyandor.runIter s).queue = rest)
      ∧ (∀ n s, s.paused = true →
          Pyandor.Msg.unpauseMsg ∉ s.queue →
          Pyandor.Msg.singleMsg ∉ s.queue →
          (Pyandor.runIters n s).published = s.published) := by
  constructor
  · intro s rest habort hq
    unfold Pyandor.runIter
    simp only [habort, hq, Bool.false_eq_true, if_false, ite_false]
    refine ⟨by simp, by simp, ?_, by simp⟩
    simpa using (Pyandor.cam_stop_fields s.cam).1
  · intro n s hp hu hsg
    exact Pyandor.runIters_paused n s hp hu hsg

/-- Witness for C3 (amended) at a concrete pending-pause state and three
paused iterations. -/
theorem Pyandor.worker_checks_queue_before_capture_witness :
    ((Pyandor.runIter Pyandor.pauseThenSingleState).published
          = Pyandor.pauseThenSingleState.published
        ∧ (Pyandor.runIter Pyandor.pauseThenSingleState).paused = true
        ∧ (Pyandor.runIter Pyandor.pauseThenSingleState).cam.acquiring = false
        ∧ (Pyandor.runIter Pyandor.pauseThenSingleState).queue
            = [Pyandor.Msg.singleMsg])
      ∧ (Pyandor.runIters 3 Pyandor.afterPause).published
          = Pyandor.afterPause.published :=
  ⟨Pyandor.worker_checks_queue_before_capture.1 Pyandor.pauseThenSingleState
      [Pyandor.Msg.singleMsg] rfl rfl,
   Pyandor.worker_checks_queue_before_capture.2 3 Pyandor.afterPause
      (by decide) (by decide) (by decide)⟩

/-- C4: evaluation at the failing input: `set_crop` on the valid
quadruple `[10, 20, 10, 20]` with a successful driver call raises
nothing, yet leaves the crop equal to the hard-coded
`[257, 288, 257, 288]` (and the shape `[32, 32]`), not the requested
quadruple. -/
theorem Pyandor.set_crop_hardcoded :
    (Pyandor.set_crop Pyandor.initCam [10, 20, 10, 20] Pyandor.DRV_SUCCESS).2 = none
      ∧ (Pyandor.set_crop Pyandor.initCam [10, 20, 10, 20]
            Pyandor.DRV_SUCCESS).1.crop = [257, 288, 257, 288]
      ∧ (Pyandor.set_crop Pyandor.initCam [10, 20, 10, 20]
            Pyandor.DRV_SUCCESS).1.shape = [32, 32]
      ∧ ([257, 288, 257, 288] : List Int) ≠ [10, 20, 10, 20] := by
  decide

/-- C5 counterexample: with the capability range `[-90, 30]` and current
set point `-10`, requesting `-95` does fail before any driver call, but
the stored set point is overwritten with `-95` rather than left at
`-10`, because the attribute is written before the validation. -/
theorem Pyandor.set_cooler_mutates_on_invalid :
    (Pyandor.set_cooler_temperature Pyandor.coolerCam (-95)
          Pyandor.DRV_SUCCESS).2
        = some (Pyandor.CamErr.valueErr "Invalid set point.")
      ∧ (Pyandor.set_cooler_temperature Pyandor.coolerCam (-95)
            Pyandor.DRV_SUCCESS).1.calls = []
      ∧ (Pyandor.set_cooler_temperature Pyandor.coolerCam (-95)
            Pyandor.DRV_SUCCESS).1.temperature_set_point = -95
      ∧ Pyandor.coolerCam.temperature_set_point = -10 := by
  decide

/-- C5 (amended): a set point outside the capability range fails with
the validation error before any vendor call (the call trace is
unchanged), but the stored set point is left equal to the requested
invalid value (written before validation); a set point inside the range
succeeds (when the driver reports success) with the stored set point
equal to the requested value. -/
theorem Pyandor.set_cooler_temperature_amended (c : Pyandor.Cam)
    (temp : Int) (status : Nat) :
    ((temp > c.temp_range.2 ∨ temp < c.temp_range.1) →
        (Pyandor.set_cooler_temperature c temp status).2
            = some (Pyandor.CamErr.valueErr "Invalid set point.")
          ∧ (Pyandor.set_cooler_temperature c temp status).1.calls = c.calls
          ∧ (Pyandor.set_cooler_temperature c temp
                status).1.temperature_set_point = temp)
      ∧ (c.temp_range.1 ≤ temp → temp ≤ c.temp_range.2 →
          status = Pyandor.DRV_SUCCESS →
          (Pyandor.set_cooler_temperature c temp status).2 = none
            ∧ (Pyandor.set_cooler_temperature c temp
                  status).1.temperature_set_point = temp) := by
  constructor
  · intro h
    simp [Pyandor.set_cooler_temperature, h]
  · intro h1 h2 hs
    have hcond : ¬ (temp > c.temp_range.2 ∨ temp < c.temp_range.1) := by
      push_neg
      exact ⟨h2, h1⟩
    subst hs
    simp [Pyandor.set_cooler_temperature, hcond, Pyandor.chkErr_success]

/-- Witness for C5 (amended) at `-95` (outside `[-90, 30]`) and `-20`
(inside). -/
theorem Pyandor.set_cooler_temperature_amended_witness :
    ((Pyandor.set_cooler_temperature Pyandor.coolerCam (-95)
          Pyandor.DRV_SUCCESS).2
        = some (Pyandor.CamErr.valueErr "Invalid set point.")
        ∧ (Pyandor.set_cooler_temperature Pyandor.coolerCam (-95)
              Pyandor.DRV_SUCCESS).1.calls = Pyandor.coolerCam.calls
        ∧ (Pyandor.set_cooler_temperature Pyandor.coolerCam (-95)
              Pyandor.DRV_SUCCESS).1.temperature_set_point = -95)
      ∧ ((Pyandor.set_cooler_temperature Pyandor.coolerCam (-20)
            Pyandor.DRV_SUCCESS).2 = none
        ∧ (Pyandor.set_cooler_temperature Pyandor.coolerCam (-20)
              Pyandor.DRV_SUCCESS).1.temperature_set_point = -20) :=
  ⟨(Pyandor.set_cooler_temperature_amended Pyandor.coolerCam (-95)
      Pyandor.DRV_SUCCESS).1 (by decide),
   (Pyandor.set_cooler_temperature_amended Pyandor.coolerCam (-20)
      Pyandor.DRV_SUCCESS).2 (by decide) (by decide) rfl⟩

/-- C6: stopping an already idle device never raises (the abort status
`DRV_IDLE` is exempted from `_chk`) and is treated as success; stopping
a streaming device raises nothing, transitions it to idle, and issues
the abort exactly once. -/
theorem Pyandor.stop_idempotent (c : Pyandor.Cam) :
    (c.acquiring = false →
        (Pyandor.cam_stop c).2 = none
          ∧ (Pyandor.cam_stop c).1.acquiring = false)
      ∧ (c.acquiring = true →
        (Pyandor.cam_stop c).2 = none
          ∧ (Pyandor.cam_stop c).1.acquiring = false
          ∧ (Pyandor.cam_stop c).1.calls.count
                Pyandor.DriverCall.abortAcquisitionCall
              = c.calls.count Pyandor.DriverCall.abortAcquisitionCall + 1) := by
  constructor
  · intro h
    exact ⟨(Pyandor.cam_stop_fields c).2.1, (Pyandor.cam_stop_fields c).1⟩
  · intro h
    refine ⟨(Pyandor.cam_stop_fields c).2.1, (Pyandor.cam_stop_fields c).1, ?_⟩
    rw [(Pyandor.cam_stop_fields c).2.2.1]
    simp

/-- Witness for C6 at an idle camera and a streaming camera. -/
theorem Pyandor.stop_idempotent_witness :
    ((Pyandor.cam_stop Pyandor.initCam).2 = none
        ∧ (Pyandor.cam_stop Pyandor.initCam).1.acquiring = false)
      ∧ ((Pyandor.cam_stop Pyandor.streamCam).2 = none
        ∧ (Pyandor.cam_stop Pyandor.streamCam).1.acquiring = false
        ∧ (Pyandor.cam_stop Pyandor.streamCam).1.calls.count
              Pyandor.DriverCall.abortAcquisitionCall
            = Pyandor.streamCam.calls.count
                Pyandor.DriverCall.abortAcquisitionCall + 1) :=
  ⟨(Pyandor.stop_idempotent Pyandor.initCam).1 rfl,
   (Pyandor.stop_idempotent Pyandor.streamCam).2 rfl⟩

/-- Helper: `_chk` raises the fatal `AndorError` on the generic driver
error code `GetImages` reports for a bad range. -/
theorem Pyandor.chkErr_general_errors :
    Pyandor.chkErr Pyandor.DRV_GENERAL_ERRORS
      = some (Pyandor.CamErr.andor
          "Andor returned the status message DRV_GENERAL_ERRORS") := by
  decide

/-- C7: for a camera whose per-frame pixel count is positive,
`acquire_images` fails whenever `first > last` or the requested range
falls outside the retained ring-buffer range, and on an in-range request
returns the frames of the inclusive index range in index order, with
`last - first + 1` of them. -/
theorem Pyandor.acquire_images_range (c : Pyandor.Cam) (rb : Pyandor.RingBuf)
    (first last : Nat) (hpix : 0 < Pyandor.pixArea c) :
    (first > last →
        ∃ e, Pyandor.acquire_images c rb first last = Except.error e)
      ∧ (first ≤ last → ¬ (rb.firstIdx ≤ first ∧ last ≤ rb.lastIdx) →
          ∃ e, Pyandor.acquire_images c rb first last = Except.error e)
      ∧ (first ≤ last → rb.firstIdx ≤ first → last ≤ rb.lastIdx →
          Pyandor.acquire_images c rb first last
              = Except.ok
                  ((List.range (last + 1 - first)).map
                      (fun i => rb.frame (first + i)),
                    (last : Int) - (first : Int) + 1, c.shape, c.bins)
            ∧ ((List.range (last + 1 - first)).map
                  (fun i => rb.frame (first + i))).length
                = last - first + 1) := by
  refine ⟨?_, ?_, ?_⟩
  · intro hgt
    by_cases hneg : (last : Int) - (first : Int) + 1 < 0
    · have hbuf : Pyandor.pixArea c * ((last : Int) - (first : Int) + 1) < 0 :=
        mul_neg_of_pos_of_neg hpix hneg
      refine ⟨Pyandor.CamErr.valueErr "array length must be >= 0", ?_⟩
      simp [Pyandor.acquire_images, hbuf]
    · have hz : (last : Int) - (first : Int) + 1 = 0 := by omega
      have hfl : ¬ (first ≤ last ∧ rb.firstIdx ≤ first ∧ last ≤ rb.lastIdx) := by
        omega
      refine ⟨Pyandor.CamErr.andor
        "Andor returned the status message DRV_GENERAL_ERRORS", ?_⟩
      simp [Pyandor.acquire_images, hz, Pyandor.getImagesDriver, hfl,
        Pyandor.chkErr_general_errors]
  · intro hle hout
    have hpos : 0 < (last : Int) - (first : Int) + 1 := by omega
    have hbuf : ¬ Pyandor.pixArea c * ((last : Int) - (first : Int) + 1) < 0 :=
      not_lt.mpr (le_of_lt (mul_pos hpix hpos))
    have hfl : ¬ (first ≤ last ∧ rb.firstIdx ≤ first ∧ last ≤ rb.lastIdx) := by
      intro h
      exact hout ⟨h.2.1, h.2.2⟩
    refine ⟨Pyandor.CamErr.andor
      "Andor returned the status message DRV_GENERAL_ERRORS", ?_⟩
    simp [Pyandor.acquire_images, hbuf, Pyandor.getImagesDriver, hfl,
      Pyandor.chkErr_general_errors]
  · intro hle h1 h2
    have hpos : 0 < (last : Int) - (first : Int) + 1 := by omega
    have hbuf : ¬ Pyandor.pixArea c * ((last : Int) - (first : Int) + 1) < 0 :=
      not_lt.mpr (le_of_lt (mul_pos hpix hpos))
    have hfl : first ≤ last ∧ rb.firstIdx ≤ first ∧ last ≤ rb.lastIdx :=
      ⟨hle, h1, h2⟩
    constructor
    · simp [Pyandor.acquire_images, hbuf, Pyandor.getImagesDriver, hfl,
        Pyandor.chkErr_success]
    · simp only [List.length_map, List.length_range]
      omega

/-- Witness for C7 with a ring buffer retaining indices 10 to 25: the
in-range request `(11, 20)` yields the 10 frames `11..20` in order, the
out-of-range request `(5, 8)` fails, and the reversed request `(7, 3)`
fails. -/
theorem Pyandor.acquire_images_range_witness :
    (Pyandor.acquire_images Pyandor.initCam ⟨10, 25, fun i => i⟩ 11 20
          = Except.ok
              ((List.range 10).map (fun i => (⟨10, 25, fun j => j⟩ :
                  Pyandor.RingBuf).frame (11 + i)),
                (10 : Int), Pyandor.initCam.shape, Pyandor.initCam.bins)
        ∧ ((List.range 10).map (fun i => (⟨10, 25, fun j => j⟩ :
              Pyandor.RingBuf).frame (11 + i))).length = 10)
      ∧ (∃ e, Pyandor.acquire_images Pyandor.initCam ⟨10, 25, fun i => i⟩ 5 8
          = Except.error e)
      ∧ (∃ e, Pyandor.acquire_images Pyandor.initCam ⟨10, 25, fun i => i⟩ 7 3
          = Except.error e) :=
  ⟨(Pyandor.acquire_images_range Pyandor.initCam ⟨10, 25, fun i => i⟩ 11 20
      (by decide)).2.2 (by decide) (by decide) (by decide),
   (Pyandor.acquire_images_range Pyandor.initCam ⟨10, 25, fun i => i⟩ 5 8
      (by decide)).2.1 (by decide) (by decide),
   (Pyandor.acquire_images_range Pyandor.initCam ⟨10, 25, fun i => i⟩ 7 3
      (by decide)).1 (by decide)⟩

/-- C9: whenever the mode `continuous` is accepted (and the driver's
`SetAcquisitionMode` status passes `_chk`), the vendor call setting the
kinetic cycle time to 0 is issued within the same operation; and a mode
name outside the valid mode table raises an error with the camera state
(attributes and call trace) completely unchanged. -/
theorem Pyandor.set_acquisition_mode_invariant (c : Pyandor.Cam)
    (mode : String) (s1 s2 : Nat) :
    (mode = "continuous" → Pyandor.chkErr s1 = none →
        Pyandor.DriverCall.setKineticCycleTimeCall 0
          ∈ (Pyandor.set_acquisition_mode c mode s1 s2).1.calls)
      ∧ (mode ∉ Pyandor.acq_modes.map (fun p => p.1) →
        (Pyandor.set_acquisition_mode c mode s1 s2).1 = c
          ∧ (Pyandor.set_acquisition_mode c mode s1 s2).2
              = some (Pyandor.CamErr.andor
                  ("Acquisition mode must be one of " ++ mode))) := by
  constructor
  · rintro rfl hchk
    have hfind : Pyandor.acq_modes.find? (fun p => p.1 = "continuous")
        = some ("continuous", 5) := by decide
    simp [Pyandor.set_acquisition_mode, hfind, hchk]
  · intro hmode
    have hfind : Pyandor.acq_modes.find? (fun p => p.1 = mode) = none := by
      rw [List.find?_eq_none]
      intro p hp
      simp only [decide_eq_true_eq]
      intro hEq
      exact hmode (List.mem_map.mpr ⟨p, hp, hEq⟩)
    simp [Pyandor.set_acquisition_mode, hfind]

/-- Witness for C9 at the mode `continuous` with successful driver
statuses, and at the invalid mode name `video`. -/
theorem Pyandor.set_acquisition_mode_invariant_witness :
    (Pyandor.DriverCall.setKineticCycleTimeCall 0
        ∈ (Pyandor.set_acquisition_mode Pyandor.initCam "continuous"
            Pyandor.DRV_SUCCESS Pyandor.DRV_SUCCESS).1.calls)
      ∧ ((Pyandor.set_acquisition_mode Pyandor.initCam "video"
            Pyandor.DRV_SUCCESS Pyandor.DRV_SUCCESS).1 = Pyandor.initCam
        ∧ (Pyandor.set_acquisition_mode Pyandor.initCam "video"
              Pyandor.DRV_SUCCESS Pyandor.DRV_SUCCESS).2
            = some (Pyandor.CamErr.andor
                "Acquisition mode must be one of video")) :=
  ⟨(Pyandor.set_acquisition_mode_invariant Pyandor.initCam "continuous"
      Pyandor.DRV_SUCCESS Pyandor.DRV_SUCCESS).1 rfl (by decide),
   (Pyandor.set_acquisition_mode_invariant Pyandor.initCam "video"
      Pyandor.DRV_SUCCESS Pyandor.DRV_SUCCESS).2 (by decide)⟩

/-- C10: for every in-range gain and every driver status, the
`elif result == DRV_P1INVALID` branch of `set_gain` is dead: its warning
never fires, because when the driver returns `DRV_P1INVALID` the first
branch already accepts it, stores the requested gain, and raises
nothing. -/
theorem Pyandor.set_gain_dead_branch (c : Pyandor.Cam) (gain result : Nat)
    (hg : gain ≤ 255) :
    (Pyandor.set_gain c gain result).invalidWarn = false
      ∧ (result = Pyandor.DRV_P1INVALID →
          (Pyandor.set_gain c gain result).cam.gain = gain
            ∧ (Pyandor.set_gain c gain result).err = none) := by
  constructor
  · unfold Pyandor.set_gain
    split
    · rfl
    · split
      · rfl
      · split
        · rename_i h1 h2
          exact absurd (Or.inr h2) h1
        · rfl
  · rintro rfl
    simp [Pyandor.set_gain, hg, Pyandor.DRV_P1INVALID, Pyandor.DRV_SUCCESS]

/-- Witness for C10 at gain 2 and the status `DRV_P1INVALID` (20066). -/
theorem Pyandor.set_gain_dead_branch_witness :
    (Pyandor.set_gain Pyandor.initCam 2 Pyandor.DRV_P1INVALID).invalidWarn
        = false
      ∧ (Pyandor.DRV_P1INVALID = Pyandor.DRV_P1INVALID →
          (Pyandor.set_gain Pyandor.initCam 2
              Pyandor.DRV_P1INVALID).cam.gain = 2
            ∧ (Pyandor.set_gain Pyandor.initCam 2
                Pyandor.DRV_P1INVALID).err = none) :=
  Pyandor.set_gain_dead_branch Pyandor.initCam 2 Pyandor.DRV_P1INVALID
    (by decide)

/-- C8: evaluation at the failing input: `set_bins(2)` with a successful
driver call raises nothing, yet leaves the bin factor equal to the
hard-coded 1 (the assignment of the argument is commented out in the
source), not the requested 2. -/
theorem Pyandor.set_bins_hardcoded :
    (Pyandor.set_bins Pyandor.initCam 2 Pyandor.DRV_SUCCESS).2 = none
      ∧ (Pyandor.set_bins Pyandor.initCam 2 Pyandor.DRV_SUCCESS).1.bins = 1
      ∧ (Pyandor.set_bins Pyandor.initCam 2 Pyandor.DRV_SUCCESS).1.bins ≠ 2 := by
  decide
